import Mathlib

/-!
Shallow embedding of the SensorPy orchestration layer (sensorpy package):
the three sensor capability machines (STC31CSensor, SHTC3Sensor, SPS30Sensor)
and the SensorManager coordinator.

Modelling conventions:
  - The transport driver (the shared C library behind ctypes) is modelled as
    an oracle structure `Bus` giving, for each driver function, the integer
    status it returns and the output values it writes.
  - Each Python method becomes a pure function
    `Bus → State → Except PyErr α × State × List Cmd`:
    the result (exceptions become `Except.error`), the post-state of the
    mutable object fields, and the ordered list of driver (bus) commands
    issued during the call.
  - Python `float` sensor values are carried as `Rat` (no claim here depends
    on floating-point rounding); `c_uint8` fields are `Nat`.
  - Python dicts returned by `read` are association lists in insertion order.
-/

set_option autoImplicit false

/-- A driver-library call issued on the bus (one constructor per C function
used by the sensorpy package). -/
inductive Cmd where
  | sensirion_i2c_hal_init : Cmd
  | stc3x_init : Nat → Cmd
  | stc3x_set_binary_gas : Nat → Cmd
  | stc3x_enable_automatic_self_calibration : Cmd
  | stc3x_disable_automatic_self_calibration : Cmd
  | stc3x_set_relative_humidity : Rat → Cmd
  | stc3x_set_temperature : Rat → Cmd
  | stc3x_measure_gas_concentration : Cmd
  | stc3x_get_product_id : Cmd
  | stc3x_forced_recalibration : Nat → Cmd
  | stc3x_enter_sleep_mode : Cmd
  | stc3x_exit_sleep_mode : Cmd
  | sht4x_init : Nat → Cmd
  | sht4x_measure_high_precision : Cmd
  | sht4x_measure_medium_precision : Cmd
  | sht4x_measure_lowest_precision : Cmd
  | sht4x_serial_number : Cmd
  | sht4x_soft_reset : Cmd
  | sensirion_uart_open : Cmd
  | sps30_probe : Cmd
  | sps30_read_version : Cmd
  | sps30_get_serial : Cmd
  | sps30_set_fan_auto_cleaning_interval_days : Nat → Cmd
  | sps30_start_measurement : Cmd
  | sps30_stop_measurement : Cmd
  | sps30_read_measurement : Cmd
  | sps30_sleep : Cmd
  | sps30_wake_up : Cmd
  | sps30_start_manual_fan_cleaning : Cmd
  | sps30_get_fan_auto_cleaning_interval_days : Cmd
  | sps30_reset : Cmd
  | sensirion_uart_close : Cmd
deriving DecidableEq, Repr

/-- Python exceptions raised by the sensorpy package (sensorpy.exceptions
plus the builtin ValueError / NotImplementedError / AssertionError).
`sensor`, `msg`, `code`, `operation` mirror the sensor name, message,
error code and the details map "operation" entry of SensorError. -/
inductive PyErr where
  | initializationError : String → String → Int → String → PyErr
  | readError : String → String → Int → String → PyErr
  | valueError : String → PyErr
  | notImplementedError : String → PyErr
  | assertionError : PyErr
deriving DecidableEq, Repr

/-- Matches the Python except clause (InitializationError, ReadError) of
SensorManager.__init__. -/
def PyErr.isInitOrRead : PyErr → Bool
  | .initializationError _ _ _ _ => true
  | .readError _ _ _ _ => true
  | _ => false

/-- A Python Dict[str, float] result, in insertion order. -/
abbrev PyDict := List (String × Rat)

/-- A Python Union[str, int] info value. -/
inductive PyVal where
  | s : String → PyVal
  | i : Int → PyVal
deriving DecidableEq, Repr

/-- A Python Dict[str, Union[str, int]] result, in insertion order. -/
abbrev InfoDict := List (String × PyVal)

/-- Mirrors ctypes structure SPS30_VersionInfo (all fields c_uint8). -/
structure SPS30_VersionInfo where
  firmware_major : Nat
  firmware_minor : Nat
  hardware_revision : Nat
  shdlc_major : Nat
  shdlc_minor : Nat
deriving DecidableEq, Repr

/-- Mirrors ctypes structure SPS30_Measurement (all fields c_float,
modelled as Rat). -/
structure SPS30_Measurement where
  mc_1p0 : Rat
  mc_2p5 : Rat
  mc_4p0 : Rat
  mc_10p0 : Rat
  nc_0p5 : Rat
  nc_1p0 : Rat
  nc_2p5 : Rat
  nc_4p0 : Rat
  nc_10p0 : Rat
  typical_particle_size : Rat
deriving DecidableEq, Repr

/-- Transport-driver oracle: for each C driver function, the status it
returns and the outputs it writes through its out-parameters. -/
structure Bus where
  sensirion_i2c_hal_init_ret : Int
  stc3x_set_binary_gas_ret : Int
  stc3x_enable_asc_ret : Int
  stc3x_disable_asc_ret : Int
  stc3x_set_relative_humidity_ret : Int
  stc3x_set_temperature_ret : Int
  stc3x_measure_ret : Int
  stc3x_measure_co2_vol : Rat
  stc3x_measure_temperature : Rat
  stc3x_get_product_id_ret : Int
  stc3x_product_id : Nat
  stc3x_serial : Nat
  stc3x_forced_recalibration_ret : Int
  stc3x_enter_sleep_mode_ret : Int
  stc3x_exit_sleep_mode_ret : Int
  sht4x_measure_high_ret : Int
  sht4x_measure_medium_ret : Int
  sht4x_measure_lowest_ret : Int
  sht4x_temperature : Rat
  sht4x_humidity : Rat
  sht4x_serial_number_ret : Int
  sht4x_serial_number_val : Nat
  sht4x_soft_reset_ret : Int
  sensirion_uart_open_ret : Int
  sps30_probe_ret : Int
  sps30_read_version_ret : Int
  sps30_version : SPS30_VersionInfo
  sps30_get_serial_ret : Int
  sps30_serial : String
  sps30_set_auto_clean_ret : Int
  sps30_start_measurement_ret : Int
  sps30_stop_measurement_ret : Int
  sps30_read_measurement_ret : Int
  sps30_measurement : SPS30_Measurement
  sps30_sleep_ret : Int
  sps30_wake_up_ret : Int
  sps30_fan_clean_ret : Int
  sps30_get_auto_clean_ret : Int
  sps30_auto_clean_days : Nat
  sps30_reset_ret : Int
  sensirion_uart_close_ret : Int

/-- Mutable fields of SPS30Sensor (sps30_sensor.py, __init__). -/
structure SPS30State where
  version_info : Option SPS30_VersionInfo
  serial_number : String
  _initialized : Bool
  _uart_open : Bool
  _measurement_started : Bool
  _sleeping : Bool
deriving DecidableEq, Repr

/-- SPS30Sensor.__init__: fresh object state. -/
def SPS30Sensor.initState : SPS30State :=
  { version_info := none
    serial_number := "Unknown"
    _initialized := false
    _uart_open := false
    _measurement_started := false
    _sleeping := false }

/-- SPS30Sensor.initialize (sps30_sensor.py): open UART, probe, read
version, read serial, set auto-clean interval, start measurement.
The Python name carries no trailing underscore. -/
def SPS30Sensor.initialize_ (bus : Bus) (auto_clean_days : Nat) (s : SPS30State) :
    Except PyErr Unit × SPS30State × List Cmd :=
  let c1 := [Cmd.sensirion_uart_open]
  if bus.sensirion_uart_open_ret ≠ 0 then
    (.error (.initializationError "SPS30" "Failed to initialize UART"
      bus.sensirion_uart_open_ret "sensirion_uart_open"), s, c1)
  else
    let s := { s with _uart_open := true }
    let c2 := c1 ++ [Cmd.sps30_probe]
    if bus.sps30_probe_ret ≠ 0 then
      (.error (.initializationError "SPS30" "Failed to probe SPS30 sensor"
        bus.sps30_probe_ret "sps30_probe"), s, c2)
    else
      let c3 := c2 ++ [Cmd.sps30_read_version]
      if bus.sps30_read_version_ret = 0 then
        let s := { s with version_info := some bus.sps30_version }
        let c4 := c3 ++ [Cmd.sps30_get_serial]
        if bus.sps30_get_serial_ret = 0 then
          let s := { s with serial_number := bus.sps30_serial }
          let c5 := c4 ++ [Cmd.sps30_set_fan_auto_cleaning_interval_days auto_clean_days]
          if bus.sps30_set_auto_clean_ret ≠ 0 then
            (.error (.readError "SPS30"
              ("Could not set auto-clean interval to " ++ toString auto_clean_days ++ " day(s)")
              bus.sps30_set_auto_clean_ret "sps30_set_fan_auto_cleaning_interval_days"), s, c5)
          else
            let c6 := c5 ++ [Cmd.sps30_start_measurement]
            if bus.sps30_start_measurement_ret ≠ 0 then
              (.error (.initializationError "SPS30" "Failed to start measurements"
                bus.sps30_start_measurement_ret "sps30_start_measurement"), s, c6)
            else
              let s := { s with _measurement_started := true }
              ( .ok (), { s with _initialized := true, _sleeping := false }, c6)
        else
          (.error (.readError "SPS30" "Failed to retrieve serial number"
            bus.sps30_get_serial_ret "sps30_get_serial"), s, c4)
      else
        (.error (.readError "SPS30" "Failed to retrieve version info"
          bus.sps30_read_version_ret "sps30_read_version"), s, c3)

/-- SPS30Sensor.stop_measurement. -/
def SPS30Sensor.stop_measurement (bus : Bus) (s : SPS30State) :
    Except PyErr Unit × SPS30State × List Cmd :=
  if !s._measurement_started then
    (.error (.readError "SPS30" "Cannot stop measurement: measurement not started"
      (-1) "sps30_stop_measurement"), s, [])
  else if bus.sps30_stop_measurement_ret ≠ 0 then
    (.error (.readError "SPS30" "Stopping measurement failed"
      bus.sps30_stop_measurement_ret "sps30_stop_measurement"), s, [Cmd.sps30_stop_measurement])
  else
    (.ok (), { s with _measurement_started := false }, [Cmd.sps30_stop_measurement])

/-- SPS30Sensor.read: requires initialized and measurement active; a
negative driver status is an error, with status -1 (SPS30_ERR_NOT_ENOUGH_DATA)
reported distinctly from other negative statuses. -/
def SPS30Sensor.read (bus : Bus) (s : SPS30State) :
    Except PyErr PyDict × SPS30State × List Cmd :=
  if !s._initialized || !s._measurement_started then
    (.error (.readError "SPS30"
      "Cannot read data: sensor not properly initialized or measurement not started"
      (-1) "read"), s, [])
  else
    let ret := bus.sps30_read_measurement_ret
    let cs := [Cmd.sps30_read_measurement]
    if ret < 0 then
      if ret = -1 then
        (.error (.readError "SPS30"
          "Not enough data available (the sensor needs more time)."
          ret "sps30_read_measurement"), s, cs)
      else
        (.error (.readError "SPS30" "Failed to read particulate matter data"
          ret "sps30_read_measurement"), s, cs)
    else
      let m := bus.sps30_measurement
      (.ok [("pm1.0", m.mc_1p0), ("pm2.5", m.mc_2p5), ("pm4.0", m.mc_4p0),
            ("pm10.0", m.mc_10p0), ("nc0.5", m.nc_0p5), ("nc1.0", m.nc_1p0),
            ("nc2.5", m.nc_2p5), ("nc4.0", m.nc_4p0), ("nc10.0", m.nc_10p0),
            ("typical_particle_size", m.typical_particle_size)], s, cs)

/-- The firmware capability gate of SPS30Sensor.sleep / wake_up:
self.version_info is None or self.version_info.firmware_major < 2. -/
def SPS30State.fwGateUnsupported (s : SPS30State) : Bool :=
  match s.version_info with
  | none => true
  | some vi => decide (vi.firmware_major < 2)

/-- Body of SPS30Sensor.sleep after the firmware capability gate. -/
def SPS30Sensor.sleepGuarded (bus : Bus) (s : SPS30State) :
    Except PyErr Unit × SPS30State × List Cmd :=
  if !s._initialized then
    (.error (.readError "SPS30" "Sensor not initialized" (-1) "sleep"), s, [])
  else if s._measurement_started then
    (.error (.readError "SPS30" "Stop measurement before sleeping" (-1) "sleep"), s, [])
  else if bus.sps30_sleep_ret ≠ 0 then
    (.error (.readError "SPS30" "Entering sleep failed"
      bus.sps30_sleep_ret "sps30_sleep"), s, [Cmd.sps30_sleep])
  else
    (.ok (), { s with _sleeping := true }, [Cmd.sps30_sleep])

/-- SPS30Sensor.sleep: no-op on firmware major < 2 (or missing version
info), else the guarded body. -/
def SPS30Sensor.sleep (bus : Bus) (s : SPS30State) :
    Except PyErr Unit × SPS30State × List Cmd :=
  if s.fwGateUnsupported then
    (.ok (), s, [])
  else
    SPS30Sensor.sleepGuarded bus s

/-- Body of SPS30Sensor.wake_up after the firmware capability gate. -/
def SPS30Sensor.wakeGuarded (bus : Bus) (s : SPS30State) :
    Except PyErr Unit × SPS30State × List Cmd :=
  if !s._initialized then
    (.error (.readError "SPS30" "Sensor not initialized" (-1) "wake_up"), s, [])
  else if !s._sleeping then
    (.error (.readError "SPS30" "Sensor is not sleeping" (-1) "wake_up"), s, [])
  else if bus.sps30_wake_up_ret ≠ 0 then
    (.error (.readError "SPS30" "Waking up from sleep failed"
      bus.sps30_wake_up_ret "sps30_wake_up"), s, [Cmd.sps30_wake_up])
  else
    (.ok (), { s with _sleeping := false }, [Cmd.sps30_wake_up])

/-- SPS30Sensor.wake_up: no-op on firmware major < 2 (or missing version
info), else the guarded body. -/
def SPS30Sensor.wake_up (bus : Bus) (s : SPS30State) :
    Except PyErr Unit × SPS30State × List Cmd :=
  if s.fwGateUnsupported then
    (.ok (), s, [])
  else
    SPS30Sensor.wakeGuarded bus s

/-- SPS30Sensor.start_manual_fan_cleaning. -/
def SPS30Sensor.start_manual_fan_cleaning (bus : Bus) (s : SPS30State) :
    Except PyErr Unit × SPS30State × List Cmd :=
  if !s._measurement_started then
    (.error (.readError "SPS30" "Cannot perform manual fan cleaning: measurement not started"
      (-1) "sps30_start_manual_fan_cleaning"), s, [])
  else if bus.sps30_fan_clean_ret ≠ 0 then
    (.error (.readError "SPS30" "Manual fan cleaning failed"
      bus.sps30_fan_clean_ret "sps30_start_manual_fan_cleaning"), s,
      [Cmd.sps30_start_manual_fan_cleaning])
  else
    (.ok (), s, [Cmd.sps30_start_manual_fan_cleaning])

/-- SPS30Sensor.set_fan_auto_cleaning_interval_days. -/
def SPS30Sensor.set_fan_auto_cleaning_interval_days (bus : Bus) (days : Nat) (s : SPS30State) :
    Except PyErr Unit × SPS30State × List Cmd :=
  if bus.sps30_set_auto_clean_ret ≠ 0 then
    (.error (.readError "SPS30"
      ("Failed to set auto-cleaning interval to " ++ toString days ++ " day(s)")
      bus.sps30_set_auto_clean_ret "sps30_set_fan_auto_cleaning_interval_days"), s,
      [Cmd.sps30_set_fan_auto_cleaning_interval_days days])
  else
    (.ok (), s, [Cmd.sps30_set_fan_auto_cleaning_interval_days days])

/-- SPS30Sensor.get_fan_auto_cleaning_interval_days. -/
def SPS30Sensor.get_fan_auto_cleaning_interval_days (bus : Bus) (s : SPS30State) :
    Except PyErr Nat × SPS30State × List Cmd :=
  if bus.sps30_get_auto_clean_ret ≠ 0 then
    (.error (.readError "SPS30" "Failed to get auto-cleaning interval (days)"
      bus.sps30_get_auto_clean_ret "sps30_get_fan_auto_cleaning_interval_days"), s,
      [Cmd.sps30_get_fan_auto_cleaning_interval_days])
  else
    (.ok bus.sps30_auto_clean_days, s, [Cmd.sps30_get_fan_auto_cleaning_interval_days])

/-- SPS30Sensor.reset. -/
def SPS30Sensor.reset (bus : Bus) (s : SPS30State) :
    Except PyErr Unit × SPS30State × List Cmd :=
  if bus.sps30_reset_ret ≠ 0 then
    (.error (.readError "SPS30" "Failed to reset sensor"
      bus.sps30_reset_ret "sps30_reset"), s, [Cmd.sps30_reset])
  else
    (.ok (), s, [Cmd.sps30_reset])

/-- SPS30Sensor.close: close the UART interface. -/
def SPS30Sensor.close (bus : Bus) (s : SPS30State) :
    Except PyErr Unit × SPS30State × List Cmd :=
  if bus.sensirion_uart_close_ret ≠ 0 then
    (.error (.readError "SPS30" "Failed to close UART"
      bus.sensirion_uart_close_ret "sensirion_uart_close"), s, [Cmd.sensirion_uart_close])
  else
    (.ok (), { s with _uart_open := false }, [Cmd.sensirion_uart_close])

/-- SPS30Sensor.get_info: cached info only, no bus commands. -/
def SPS30Sensor.get_info (_bus : Bus) (s : SPS30State) :
    Except PyErr InfoDict × SPS30State × List Cmd :=
  let info : InfoDict :=
    match s.version_info with
    | some vi =>
      [("firmware_version", .s (toString vi.firmware_major ++ "." ++ toString vi.firmware_minor)),
       ("hardware_revision", .i (vi.hardware_revision : Int)),
       ("shdlc_version", .s (toString vi.shdlc_major ++ "." ++ toString vi.shdlc_minor))]
    | none =>
      [("firmware_version", .s "Unknown"),
       ("hardware_revision", .i (-1)),
       ("shdlc_version", .s "Unknown")]
  (.ok (info ++ [("serial_number", .s s.serial_number)]), s, [])

/-- Mutable fields of STC31CSensor (stc31c_sensor.py, __init__). -/
structure STC31CState where
  _initialized : Bool
  _sleeping : Bool
  _enable_asc : Bool
deriving DecidableEq, Repr

/-- STC31CSensor.__init__ with the self_calibration flag. -/
def STC31CSensor.mkState (self_calibration : Bool) : STC31CState :=
  { _initialized := false, _sleeping := false, _enable_asc := self_calibration }

/-- STC31CSensor.enable_automatic_self_calibration. -/
def STC31CSensor.enable_automatic_self_calibration (bus : Bus) (s : STC31CState) :
    Except PyErr Unit × STC31CState × List Cmd :=
  if bus.stc3x_enable_asc_ret ≠ 0 then
    (.error (.readError "STC31-C" "Enabling automatic self-calibration failed"
      bus.stc3x_enable_asc_ret "stc3x_enable_automatic_self_calibration"), s,
      [Cmd.stc3x_enable_automatic_self_calibration])
  else
    (.ok (), s, [Cmd.stc3x_enable_automatic_self_calibration])

/-- STC31CSensor.disable_automatic_self_calibration. -/
def STC31CSensor.disable_automatic_self_calibration (bus : Bus) (s : STC31CState) :
    Except PyErr Unit × STC31CState × List Cmd :=
  if bus.stc3x_disable_asc_ret ≠ 0 then
    (.error (.readError "STC31-C" "Disabling automatic self-calibration failed"
      bus.stc3x_disable_asc_ret "stc3x_disable_automatic_self_calibration"), s,
      [Cmd.stc3x_disable_automatic_self_calibration])
  else
    (.ok (), s, [Cmd.stc3x_disable_automatic_self_calibration])

/-- STC31CSensor.initialize (stc31c_sensor.py): I2C hal init, stc3x_init
at address 0x29, binary gas 19, then enable or disable ASC per the flag.
The Python name carries no trailing underscore. -/
def STC31CSensor.initialize_ (bus : Bus) (s : STC31CState) :
    Except PyErr Unit × STC31CState × List Cmd :=
  let c1 := [Cmd.sensirion_i2c_hal_init]
  if bus.sensirion_i2c_hal_init_ret ≠ 0 then
    (.error (.initializationError "STC31-C" "Failed to initialize I²C interface"
      bus.sensirion_i2c_hal_init_ret "sensirion_i2c_hal_init"), s, c1)
  else
    let c2 := c1 ++ [Cmd.stc3x_init 0x29]
    let c3 := c2 ++ [Cmd.stc3x_set_binary_gas 19]
    if bus.stc3x_set_binary_gas_ret ≠ 0 then
      (.error (.initializationError "STC31-C" "Failed to set binary gas configuration"
        bus.stc3x_set_binary_gas_ret "stc3x_set_binary_gas"), s, c3)
    else
      let asc :=
        if s._enable_asc then
          STC31CSensor.enable_automatic_self_calibration bus s
        else
          STC31CSensor.disable_automatic_self_calibration bus s
      match asc with
      | (.error e, s1, ca) => (.error e, s1, c3 ++ ca)
      | (.ok _, s1, ca) =>
        (.ok (), { s1 with _initialized := true, _sleeping := false }, c3 ++ ca)

/-- STC31CSensor.read: requires the initialized flag and both compensation
arguments; a missing argument raises ValueError before any bus command. -/
def STC31CSensor.read (bus : Bus) (temperature humidity : Option Rat) (s : STC31CState) :
    Except PyErr PyDict × STC31CState × List Cmd :=
  if !s._initialized then
    (.error (.readError "STC31-C" "Sensor not initialized" (-1) "read"), s, [])
  else
    match temperature, humidity with
    | some t, some h =>
      let c1 := [Cmd.stc3x_set_relative_humidity h]
      if bus.stc3x_set_relative_humidity_ret ≠ 0 then
        (.error (.readError "STC31-C" "Failed to set relative humidity for compensation"
          bus.stc3x_set_relative_humidity_ret "stc3x_set_relative_humidity"), s, c1)
      else
        let c2 := c1 ++ [Cmd.stc3x_set_temperature t]
        if bus.stc3x_set_temperature_ret ≠ 0 then
          (.error (.readError "STC31-C" "Failed to set temperature for compensation"
            bus.stc3x_set_temperature_ret "stc3x_set_temperature"), s, c2)
        else
          let c3 := c2 ++ [Cmd.stc3x_measure_gas_concentration]
          if bus.stc3x_measure_ret ≠ 0 then
            (.error (.readError "STC31-C" "Failed to read gas concentration"
              bus.stc3x_measure_ret "stc3x_measure_gas_concentration"), s, c3)
          else
            (.ok [("co2_concentration", bus.stc3x_measure_co2_vol * 10000),
                  ("temperature", bus.stc3x_measure_temperature)], s, c3)
    | _, _ =>
      (.error (.valueError "STC31CSensor.read() requires temperature and humidity values."),
        s, [])

/-- Uppercase hexadecimal rendering of a Nat, mirroring the Python format
spec X used for the STC31-C serial number. -/
def toHexUpper (n : Nat) : String :=
  (Nat.toDigits 16 n).asString.toUpper

/-- STC31CSensor.get_info: issues stc3x_get_product_id with no state
precondition check. -/
def STC31CSensor.get_info (bus : Bus) (s : STC31CState) :
    Except PyErr InfoDict × STC31CState × List Cmd :=
  let cs := [Cmd.stc3x_get_product_id]
  if bus.stc3x_get_product_id_ret ≠ 0 then
    (.error (.readError "STC31-C" "Failed to retrieve product info"
      bus.stc3x_get_product_id_ret "stc3x_get_product_id"), s, cs)
  else
    (.ok [("product_id", .i (bus.stc3x_product_id : Int)),
          ("serial_number", .s (toHexUpper bus.stc3x_serial))], s, cs)

/-- STC31CSensor.forced_recalibration. -/
def STC31CSensor.forced_recalibration (bus : Bus) (reference_concentration : Nat)
    (s : STC31CState) : Except PyErr Unit × STC31CState × List Cmd :=
  if bus.stc3x_forced_recalibration_ret ≠ 0 then
    (.error (.readError "STC31-C" "Forced recalibration failed"
      bus.stc3x_forced_recalibration_ret "stc3x_forced_recalibration"), s,
      [Cmd.stc3x_forced_recalibration reference_concentration])
  else
    (.ok (), s, [Cmd.stc3x_forced_recalibration reference_concentration])

/-- STC31CSensor.sleep: issues the bus command with no state precondition
check; on success sets the sleeping flag. -/
def STC31CSensor.sleep (bus : Bus) (s : STC31CState) :
    Except PyErr Unit × STC31CState × List Cmd :=
  if bus.stc3x_enter_sleep_mode_ret ≠ 0 then
    (.error (.readError "STC31-C" "Entering sleep mode failed"
      bus.stc3x_enter_sleep_mode_ret "stc3x_enter_sleep_mode"), s, [Cmd.stc3x_enter_sleep_mode])
  else
    (.ok (), { s with _sleeping := true }, [Cmd.stc3x_enter_sleep_mode])

/-- STC31CSensor.wake_up. -/
def STC31CSensor.wake_up (bus : Bus) (s : STC31CState) :
    Except PyErr Unit × STC31CState × List Cmd :=
  if bus.stc3x_exit_sleep_mode_ret ≠ 0 then
    (.error (.readError "STC31-C" "Exiting sleep mode failed"
      bus.stc3x_exit_sleep_mode_ret "stc3x_exit_sleep_mode"), s, [Cmd.stc3x_exit_sleep_mode])
  else
    (.ok (), { s with _sleeping := false }, [Cmd.stc3x_exit_sleep_mode])

/-- Mutable fields of SHTC3Sensor (shtc3_sensor.py, __init__). -/
structure SHTC3State where
  i2c_address : Nat
  _initialized : Bool
  _sleeping : Bool
deriving DecidableEq, Repr

/-- SHTC3Sensor.__init__ at the default I2C address 0x44. -/
def SHTC3Sensor.mkState : SHTC3State :=
  { i2c_address := 0x44, _initialized := false, _sleeping := false }

/-- SHTC3Sensor.initialize: sht4x_init returns void, so this always
succeeds and sets the initialized flag. The Python name carries no
trailing underscore. -/
def SHTC3Sensor.initialize_ (_bus : Bus) (s : SHTC3State) :
    Except PyErr Unit × SHTC3State × List Cmd :=
  (.ok (), { s with _initialized := true }, [Cmd.sht4x_init s.i2c_address])

/-- SHTC3Sensor.read with a precision mode string (default call sites use
"high"). -/
def SHTC3Sensor.read (bus : Bus) (mode : String) (s : SHTC3State) :
    Except PyErr PyDict × SHTC3State × List Cmd :=
  if !s._initialized then
    (.error (.readError "SHTC3" "Sensor not initialized" (-1) "read"), s, [])
  else
    let finish := fun (ret : Int) (cs : List Cmd) =>
      if ret ≠ 0 then
        (Except.error (PyErr.readError "SHTC3"
          ("Failed to read temperature/humidity in " ++ mode ++ " precision mode")
          ret ("sht4x_measure_" ++ mode ++ "_precision")), s, cs)
      else
        (Except.ok [("temperature", bus.sht4x_temperature),
                    ("relative_humidity", bus.sht4x_humidity)], s, cs)
    if mode = "high" then
      finish bus.sht4x_measure_high_ret [Cmd.sht4x_measure_high_precision]
    else if mode = "medium" then
      finish bus.sht4x_measure_medium_ret [Cmd.sht4x_measure_medium_precision]
    else if mode = "lowest" then
      finish bus.sht4x_measure_lowest_ret [Cmd.sht4x_measure_lowest_precision]
    else
      (.error (.valueError "Invalid mode. Choose high, medium, or lowest."), s, [])

/-- SHTC3Sensor.get_info. -/
def SHTC3Sensor.get_info (bus : Bus) (s : SHTC3State) :
    Except PyErr InfoDict × SHTC3State × List Cmd :=
  if !s._initialized then
    (.error (.readError "SHTC3" "Sensor not initialized" (-1) "get_info"), s, [])
  else if bus.sht4x_serial_number_ret ≠ 0 then
    (.error (.readError "SHTC3" "Failed to retrieve serial number"
      bus.sht4x_serial_number_ret "sht4x_serial_number"), s, [Cmd.sht4x_serial_number])
  else
    (.ok [("serial_number", .i (bus.sht4x_serial_number_val : Int))], s,
      [Cmd.sht4x_serial_number])

/-- SHTC3Sensor.soft_reset. -/
def SHTC3Sensor.soft_reset (bus : Bus) (s : SHTC3State) :
    Except PyErr Unit × SHTC3State × List Cmd :=
  if !s._initialized then
    (.error (.readError "SHTC3" "Sensor not initialized" (-1) "soft_reset"), s, [])
  else if bus.sht4x_soft_reset_ret ≠ 0 then
    (.error (.readError "SHTC3" "Soft reset failed"
      bus.sht4x_soft_reset_ret "sht4x_soft_reset"), s, [Cmd.sht4x_soft_reset])
  else
    (.ok (), s, [Cmd.sht4x_soft_reset])

/-- SHTC3Sensor.sleep is literally the Python statement pass: it silently
succeeds, changes nothing and issues no bus command. -/
def SHTC3Sensor.sleep (_bus : Bus) (s : SHTC3State) :
    Except PyErr Unit × SHTC3State × List Cmd :=
  (.ok (), s, [])

/-- SHTC3Sensor.wake_up is literally the Python statement pass. -/
def SHTC3Sensor.wake_up (_bus : Bus) (s : SHTC3State) :
    Except PyErr Unit × SHTC3State × List Cmd :=
  (.ok (), s, [])

/-- Mutable fields of SensorManager (sensor_manager.py, __init__): the
three activation flags and the optional sensor objects. -/
structure SensorManager where
  enable_stc31c : Bool
  enable_shtc3 : Bool
  enable_sps30 : Bool
  stc31c : Option STC31CState
  shtc3 : Option SHTC3State
  sps30 : Option SPS30State
deriving DecidableEq, Repr

/-- The part of SensorManager.__init__ before the try block: the SHTC3
dependency enforcement (with its logger.error side effect reported as the
Bool) and the instantiation of the enabled sensor objects. -/
def SensorManager.preInit (co2_self_calibration enable_stc31c enable_shtc3 enable_sps30 : Bool) :
    SensorManager × Bool :=
  let dep_warn := enable_stc31c && !enable_shtc3
  let enable_shtc3 := enable_shtc3 || dep_warn
  ({ enable_stc31c := enable_stc31c
     enable_shtc3 := enable_shtc3
     enable_sps30 := enable_sps30
     stc31c := if enable_stc31c then some (STC31CSensor.mkState co2_self_calibration) else none
     shtc3 := if enable_shtc3 then some SHTC3Sensor.mkState else none
     sps30 := if enable_sps30 then some SPS30Sensor.initState else none }, dep_warn)

/-- Last step of the try block of SensorManager.__init__: initialize the
SPS30 with auto_clean_days = 4 when enabled. The assert statement becomes
assertionError when an enabled sensor object is missing. -/
def SensorManager.initPhase_sps (bus : Bus) (m : SensorManager) (cs : List Cmd) :
    Except PyErr Unit × SensorManager × List Cmd :=
  if m.enable_sps30 then
    match m.sps30 with
    | none => (Except.error PyErr.assertionError, m, cs)
    | some sp =>
      match SPS30Sensor.initialize_ bus 4 sp with
      | (.error e, sp1, c) => (Except.error e, { m with sps30 := some sp1 }, cs ++ c)
      | (.ok _, sp1, c) => (Except.ok (), { m with sps30 := some sp1 }, cs ++ c)
  else
    (Except.ok (), m, cs)

/-- Middle step of the try block of SensorManager.__init__: initialize
the SHTC3 when enabled, then continue with the SPS30 step. -/
def SensorManager.initPhase_sht (bus : Bus) (m : SensorManager) (cs : List Cmd) :
    Except PyErr Unit × SensorManager × List Cmd :=
  if m.enable_shtc3 then
    match m.shtc3 with
    | none => (Except.error PyErr.assertionError, m, cs)
    | some sh =>
      match SHTC3Sensor.initialize_ bus sh with
      | (.error e, sh1, c) => (Except.error e, { m with shtc3 := some sh1 }, cs ++ c)
      | (.ok _, sh1, c) => SensorManager.initPhase_sps bus { m with shtc3 := some sh1 } (cs ++ c)
  else
    SensorManager.initPhase_sps bus m cs

/-- The try block of SensorManager.__init__: initialize each enabled
sensor in order STC31-C, SHTC3, SPS30, stopping at the first failure. -/
def SensorManager.initPhase (bus : Bus) (m : SensorManager) :
    Except PyErr Unit × SensorManager × List Cmd :=
  if m.enable_stc31c then
    match m.stc31c with
    | none => (Except.error PyErr.assertionError, m, [])
    | some st =>
      match STC31CSensor.initialize_ bus st with
      | (.error e, st1, c) => (Except.error e, { m with stc31c := some st1 }, c)
      | (.ok _, st1, c) => SensorManager.initPhase_sht bus { m with stc31c := some st1 } c
  else
    SensorManager.initPhase_sht bus m []

/-- SensorManager.shutdown: for an enabled SPS30, try to stop an active
measurement and close the UART, swallowing any error from either step. -/
def SensorManager.shutdown (bus : Bus) (m : SensorManager) : SensorManager × List Cmd :=
  if m.enable_sps30 then
    match m.sps30 with
    | none => (m, [])
    | some s0 =>
      let stopped :=
        if s0._measurement_started then
          match SPS30Sensor.stop_measurement bus s0 with
          | (_, s1, c) => (s1, c)
        else (s0, [])
      match SPS30Sensor.close bus stopped.1 with
      | (_, s2, c2) => ({ m with sps30 := some s2 }, stopped.2 ++ c2)
  else
    (m, [])

/-- Outcome of SensorManager.__init__: the constructed manager or the
raised error, the bus commands issued, whether the SHTC3 dependency
override was logged, and whether the except branch ran self.shutdown(). -/
structure MkOutcome where
  result : Except PyErr SensorManager
  cmds : List Cmd
  dep_warned : Bool
  shutdown_called : Bool
deriving Repr

/-- SensorManager.__init__: dependency enforcement and instantiation,
then the try block; on an InitializationError or ReadError the manager
shuts down whatever exists and re-raises the original error. -/
def SensorManager.mk_ (bus : Bus)
    (co2_self_calibration enable_stc31c enable_shtc3 enable_sps30 : Bool) : MkOutcome :=
  let pre := SensorManager.preInit co2_self_calibration enable_stc31c enable_shtc3 enable_sps30
  match SensorManager.initPhase bus pre.1 with
  | (.ok _, m1, cs) =>
    { result := .ok m1, cmds := cs, dep_warned := pre.2, shutdown_called := false }
  | (.error e, m1, cs) =>
    if e.isInitOrRead then
      let sd := SensorManager.shutdown bus m1
      { result := .error e, cmds := cs ++ sd.2, dep_warned := pre.2, shutdown_called := true }
    else
      { result := .error e, cmds := cs, dep_warned := pre.2, shutdown_called := false }

/-- The shtc3_data truthiness test of SensorManager.read_all: Python
`if shtc3_data:` is true for a non-None, non-empty dict. -/
def dictTruthy (d : Option PyDict) : Bool :=
  match d with
  | none => false
  | some l => !l.isEmpty

/-- Third stage of SensorManager.read_all: the SPS30 read. -/
def SensorManager.read_all_sps (bus : Bus) (m : SensorManager)
    (result : List (String × PyDict)) (cs : List Cmd) :
    Except PyErr (List (String × PyDict)) × SensorManager × List Cmd :=
  if m.enable_sps30 then
    match m.sps30 with
    | none => (Except.error PyErr.assertionError, m, cs)
    | some sp =>
      match SPS30Sensor.read bus sp with
      | (.error e, sp1, c) => (Except.error e, { m with sps30 := some sp1 }, cs ++ c)
      | (.ok d, sp1, c) =>
        (Except.ok (result ++ [("sps30", d)]), { m with sps30 := some sp1 }, cs ++ c)
  else
    (Except.ok result, m, cs)

/-- Second stage of SensorManager.read_all: the STC31-C read, skipped
with a logged error when the SHTC3 data is absent or empty. -/
def SensorManager.read_all_stc (bus : Bus) (m : SensorManager) (shtc3_data : Option PyDict)
    (result : List (String × PyDict)) (cs : List Cmd) :
    Except PyErr (List (String × PyDict)) × SensorManager × List Cmd :=
  if m.enable_stc31c then
    match m.stc31c with
    | none => (Except.error PyErr.assertionError, m, cs)
    | some st =>
      if dictTruthy shtc3_data then
        let d := (shtc3_data.getD [])
        match STC31CSensor.read bus (d.lookup "temperature") (d.lookup "relative_humidity") st with
        | (.error e, st1, c) => (Except.error e, { m with stc31c := some st1 }, cs ++ c)
        | (.ok v, st1, c) =>
          SensorManager.read_all_sps bus { m with stc31c := some st1 }
            (result ++ [("stc31c", v)]) (cs ++ c)
      else
        -- logger.error: cannot read STC31C without SHTC3 data; reading skipped
        SensorManager.read_all_sps bus m result cs
  else
    SensorManager.read_all_sps bus m result cs

/-- SensorManager.read_all: SHTC3 first (mode "high"), then STC31-C with
the SHTC3 compensation values, then SPS30. No per-sensor fault is caught:
the first raising read aborts the whole call. -/
def SensorManager.read_all (bus : Bus) (m : SensorManager) :
    Except PyErr (List (String × PyDict)) × SensorManager × List Cmd :=
  if m.enable_shtc3 then
    match m.shtc3 with
    | none => (Except.error PyErr.assertionError, m, [])
    | some sh =>
      match SHTC3Sensor.read bus "high" sh with
      | (.error e, sh1, c) => (Except.error e, { m with shtc3 := some sh1 }, c)
      | (.ok d, sh1, c) =>
        SensorManager.read_all_stc bus { m with shtc3 := some sh1 } (some d)
          [("shtc3", d)] c
  else
    SensorManager.read_all_stc bus m none [] []

/-- An SPS30 sensor is considered initialized-consistent when the
initialized flag implies the cached version info is present. -/
def SPS30InvHolds (s : SPS30State) : Bool :=
  !s._initialized || s.version_info.isSome

/-- The public operations of SPS30Sensor, with their arguments. -/
inductive SPS30Op where
  | initialize_ : Nat → SPS30Op
  | stop_measurement : SPS30Op
  | read : SPS30Op
  | sleep : SPS30Op
  | wake_up : SPS30Op
  | start_manual_fan_cleaning : SPS30Op
  | set_fan_auto_cleaning_interval_days : Nat → SPS30Op
  | get_fan_auto_cleaning_interval_days : SPS30Op
  | reset : SPS30Op
  | close : SPS30Op
  | get_info : SPS30Op
deriving DecidableEq, Repr

/-- The post-state of one public SPS30Sensor operation (whether it
raised or returned). -/
def SPS30Op.stepState : SPS30Op → Bus → SPS30State → SPS30State
  | .initialize_ d, bus, s => (SPS30Sensor.initialize_ bus d s).2.1
  | .stop_measurement, bus, s => (SPS30Sensor.stop_measurement bus s).2.1
  | .read, bus, s => (SPS30Sensor.read bus s).2.1
  | .sleep, bus, s => (SPS30Sensor.sleep bus s).2.1
  | .wake_up, bus, s => (SPS30Sensor.wake_up bus s).2.1
  | .start_manual_fan_cleaning, bus, s => (SPS30Sensor.start_manual_fan_cleaning bus s).2.1
  | .set_fan_auto_cleaning_interval_days d, bus, s =>
      (SPS30Sensor.set_fan_auto_cleaning_interval_days bus d s).2.1
  | .get_fan_auto_cleaning_interval_days, bus, s =>
      (SPS30Sensor.get_fan_auto_cleaning_interval_days bus s).2.1
  | .reset, bus, s => (SPS30Sensor.reset bus s).2.1
  | .close, bus, s => (SPS30Sensor.close bus s).2.1
  | .get_info, bus, s => (SPS30Sensor.get_info bus s).2.1

/-- A manager state in which every enabled sensor object exists and has
its initialized flag set. -/
def managerFullyInitialized (m : SensorManager) : Bool :=
  (!m.enable_stc31c || (match m.stc31c with | some st => st._initialized | none => false)) &&
  (!m.enable_shtc3 || (match m.shtc3 with | some sh => sh._initialized | none => false)) &&
  (!m.enable_sps30 || (match m.sps30 with | some sp => sp._initialized | none => false))

/-- Sample version info with firmware major 2 (sleep/wake supported). -/
def verFW2 : SPS30_VersionInfo :=
  { firmware_major := 2, firmware_minor := 2, hardware_revision := 7
    shdlc_major := 2, shdlc_minor := 0 }

/-- Sample version info with firmware major 1 (sleep/wake gated off). -/
def verFW1 : SPS30_VersionInfo :=
  { firmware_major := 1, firmware_minor := 0, hardware_revision := 7
    shdlc_major := 2, shdlc_minor := 0 }

/-- Sample measurement values written by the driver. -/
def sampleMeas : SPS30_Measurement :=
  { mc_1p0 := 1, mc_2p5 := 25, mc_4p0 := 4, mc_10p0 := 10
    nc_0p5 := 5, nc_1p0 := 11, nc_2p5 := 12, nc_4p0 := 13, nc_10p0 := 14
    typical_particle_size := 5/2 }

/-- A bus oracle on which every driver call succeeds (status 0) with
sample output values. -/
def busOK : Bus :=
  { sensirion_i2c_hal_init_ret := 0
    stc3x_set_binary_gas_ret := 0
    stc3x_enable_asc_ret := 0
    stc3x_disable_asc_ret := 0
    stc3x_set_relative_humidity_ret := 0
    stc3x_set_temperature_ret := 0
    stc3x_measure_ret := 0
    stc3x_measure_co2_vol := 1/10
    stc3x_measure_temperature := 26
    stc3x_get_product_id_ret := 0
    stc3x_product_id := 0x08010301
    stc3x_serial := 0xABCDEF
    stc3x_forced_recalibration_ret := 0
    stc3x_enter_sleep_mode_ret := 0
    stc3x_exit_sleep_mode_ret := 0
    sht4x_measure_high_ret := 0
    sht4x_measure_medium_ret := 0
    sht4x_measure_lowest_ret := 0
    sht4x_temperature := 25
    sht4x_humidity := 50
    sht4x_serial_number_ret := 0
    sht4x_serial_number_val := 987654
    sht4x_soft_reset_ret := 0
    sensirion_uart_open_ret := 0
    sps30_probe_ret := 0
    sps30_read_version_ret := 0
    sps30_version := verFW2
    sps30_get_serial_ret := 0
    sps30_serial := "SPS30SER01"
    sps30_set_auto_clean_ret := 0
    sps30_start_measurement_ret := 0
    sps30_stop_measurement_ret := 0
    sps30_read_measurement_ret := 0
    sps30_measurement := sampleMeas
    sps30_sleep_ret := 0
    sps30_wake_up_ret := 0
    sps30_fan_clean_ret := 0
    sps30_get_auto_clean_ret := 0
    sps30_auto_clean_days := 4
    sps30_reset_ret := 0
    sensirion_uart_close_ret := 0 }

/-- busOK with the STC31-C humidity-compensation write failing. -/
def busSTCReadFail : Bus :=
  { busOK with stc3x_set_relative_humidity_ret := 5 }

/-- busOK with the particulate read command returning the positive
nonzero status 1. -/
def busSPSRet1 : Bus :=
  { busOK with sps30_read_measurement_ret := 1 }

/-- busOK with the particulate read command returning -1 (insufficient
data buffered). -/
def busSPSNotEnough : Bus :=
  { busOK with sps30_read_measurement_ret := -1 }

/-- busOK with the I2C hal init failing (STC31-C initialization error). -/
def busInitFail : Bus :=
  { busOK with sensirion_i2c_hal_init_ret := 7 }

/-- A ready (initialized, awake) STC31-C state. -/
def stReady : STC31CState :=
  { _initialized := true, _sleeping := false, _enable_asc := false }

/-- A ready (initialized) SHTC3 state. -/
def shReady : SHTC3State :=
  { i2c_address := 0x44, _initialized := true, _sleeping := false }

/-- A ready SPS30 state with firmware 2 and active measurement. -/
def spActive : SPS30State :=
  { version_info := some verFW2, serial_number := "SPS30SER01"
    _initialized := true, _uart_open := true
    _measurement_started := true, _sleeping := false }

/-- A ready SPS30 state with firmware 1 and active measurement. -/
def spFW1Active : SPS30State :=
  { spActive with version_info := some verFW1 }

/-- A manager with all three sensors enabled and ready. -/
def mAll : SensorManager :=
  { enable_stc31c := true, enable_shtc3 := true, enable_sps30 := true
    stc31c := some stReady, shtc3 := some shReady, sps30 := some spActive }
/-- C9: SHTC3Sensor.sleep and wake_up, as written (the Python statement
pass), silently succeed at every state - here evaluated at the ready
state - leaving the state unchanged and issuing no bus command. The
claim, spec section 4.1 and the repository test test_sleep_wake_shtc3
instead require a NotImplementedError (CapabilityUnsupported) signal, so
this theorem exhibits the code bug at a concrete input. -/
theorem shtc3_sleep_wake_silently_succeed :
    SHTC3Sensor.sleep busOK shReady = (.ok (), shReady, []) ∧
    SHTC3Sensor.wake_up busOK shReady = (.ok (), shReady, []) :=
  ⟨rfl, rfl⟩

/-- C6: for any bus and any particulate state whose cached firmware major
version is below 2, sleep() and wake_up() are successful no-ops issuing
no bus command and leaving the whole state (including Sleeping)
unchanged; for firmware major at least 2 they proceed to the normal
guarded body. -/
theorem sps30_sleep_wake_fw_gate (bus : Bus) (s : SPS30State) (vi : SPS30_VersionInfo)
    (hv : s.version_info = some vi) :
    (vi.firmware_major < 2 →
      SPS30Sensor.sleep bus s = (.ok (), s, []) ∧
      SPS30Sensor.wake_up bus s = (.ok (), s, [])) ∧
    (2 ≤ vi.firmware_major →
      SPS30Sensor.sleep bus s = SPS30Sensor.sleepGuarded bus s ∧
      SPS30Sensor.wake_up bus s = SPS30Sensor.wakeGuarded bus s) := by
  constructor
  · intro hfw
    have hg : s.fwGateUnsupported = true := by
      simp [SPS30State.fwGateUnsupported, hv, hfw]
    constructor
    · simp [SPS30Sensor.sleep, hg]
    · simp [SPS30Sensor.wake_up, hg]
  · intro hfw
    have hg : s.fwGateUnsupported = false := by
      simp [SPS30State.fwGateUnsupported, hv]
      omega
    constructor
    · simp [SPS30Sensor.sleep, hg]
    · simp [SPS30Sensor.wake_up, hg]

/-- C6 witness: the gate theorem applied at the concrete firmware-1 and
firmware-2 active states on the all-success bus. -/
theorem sps30_sleep_wake_fw_gate_witness :
    (SPS30Sensor.sleep busOK spFW1Active = (.ok (), spFW1Active, []) ∧
      SPS30Sensor.wake_up busOK spFW1Active = (.ok (), spFW1Active, [])) ∧
    (SPS30Sensor.sleep busOK spActive = SPS30Sensor.sleepGuarded busOK spActive ∧
      SPS30Sensor.wake_up busOK spActive = SPS30Sensor.wakeGuarded busOK spActive) :=
  ⟨(sps30_sleep_wake_fw_gate busOK spFW1Active verFW1 rfl).1 (by decide),
   (sps30_sleep_wake_fw_gate busOK spActive verFW2 rfl).2 (by decide)⟩

/-- C5 counterexample: at the concrete particulate state with cached
firmware major 1 and MeasurementActive true, sleep() does not fail with
ReadError as the claim states for every state: it silently returns
success. -/
theorem sps30_sleep_fw1_active_no_error :
    SPS30Sensor.sleep busOK spFW1Active = (.ok (), spFW1Active, []) :=
  rfl

/-- C5 (amended to the firmware-gated states, which the gate makes the
only states that can fail): for every particulate state with cached
firmware major at least 2, calling sleep() while MeasurementActive is
true fails with a ReadError, leaves the whole state (in particular
MeasurementActive = true) unchanged, and issues no bus command, so
measurement is not implicitly stopped. -/
theorem sps30_sleep_active_fails (bus : Bus) (s : SPS30State) (vi : SPS30_VersionInfo)
    (hv : s.version_info = some vi) (hfw : 2 ≤ vi.firmware_major)
    (hm : s._measurement_started = true) :
    ∃ msg, SPS30Sensor.sleep bus s = (.error (.readError "SPS30" msg (-1) "sleep"), s, []) := by
  have hg : s.fwGateUnsupported = false := by
    simp [SPS30State.fwGateUnsupported, hv]
    omega
  cases hi : s._initialized
  · exact ⟨"Sensor not initialized", by
      simp [SPS30Sensor.sleep, hg, SPS30Sensor.sleepGuarded, hi]⟩
  · exact ⟨"Stop measurement before sleeping", by
      simp [SPS30Sensor.sleep, hg, SPS30Sensor.sleepGuarded, hi, hm]⟩

/-- C5 witness: the amended theorem applied at the concrete firmware-2
active state. -/
theorem sps30_sleep_active_fails_witness :
    ∃ msg, SPS30Sensor.sleep busOK spActive =
      (.error (.readError "SPS30" msg (-1) "sleep"), spActive, []) :=
  sps30_sleep_active_fails busOK spActive verFW2 rfl (by decide) rfl
/-- C7 counterexample: with the particulate read command returning the
nonzero status 1, read() does not fail with ReadError as the claim
states for every nonzero status: the code only checks for negative
statuses, so it returns the measurement record successfully. -/
theorem sps30_read_status_one_succeeds :
    SPS30Sensor.read busSPSRet1 spActive =
      (.ok [("pm1.0", 1), ("pm2.5", 25), ("pm4.0", 4), ("pm10.0", 10),
            ("nc0.5", 5), ("nc1.0", 11), ("nc2.5", 12), ("nc4.0", 13), ("nc10.0", 14),
            ("typical_particle_size", 5/2)], spActive, [Cmd.sps30_read_measurement]) :=
  rfl

/-- C7 (amended from nonzero to negative statuses): on an initialized
particulate machine with active measurement, read() fails with ReadError
exactly for negative statuses, distinguishing the reserved status -1
(insufficient data buffered, transient and retryable) from every other
negative status by a distinct message, while any non-negative status
yields the 9-field measurement record plus typical particle size. -/
theorem sps30_read_status_dispatch (bus : Bus) (s : SPS30State)
    (h1 : s._initialized = true) (h2 : s._measurement_started = true) :
    (bus.sps30_read_measurement_ret = -1 →
      SPS30Sensor.read bus s =
        (.error (.readError "SPS30" "Not enough data available (the sensor needs more time)."
          (-1) "sps30_read_measurement"), s, [Cmd.sps30_read_measurement])) ∧
    (bus.sps30_read_measurement_ret < 0 → bus.sps30_read_measurement_ret ≠ -1 →
      SPS30Sensor.read bus s =
        (.error (.readError "SPS30" "Failed to read particulate matter data"
          bus.sps30_read_measurement_ret "sps30_read_measurement"), s,
          [Cmd.sps30_read_measurement])) ∧
    (0 ≤ bus.sps30_read_measurement_ret →
      SPS30Sensor.read bus s =
        (.ok [("pm1.0", bus.sps30_measurement.mc_1p0), ("pm2.5", bus.sps30_measurement.mc_2p5),
              ("pm4.0", bus.sps30_measurement.mc_4p0), ("pm10.0", bus.sps30_measurement.mc_10p0),
              ("nc0.5", bus.sps30_measurement.nc_0p5), ("nc1.0", bus.sps30_measurement.nc_1p0),
              ("nc2.5", bus.sps30_measurement.nc_2p5), ("nc4.0", bus.sps30_measurement.nc_4p0),
              ("nc10.0", bus.sps30_measurement.nc_10p0),
              ("typical_particle_size", bus.sps30_measurement.typical_particle_size)], s,
          [Cmd.sps30_read_measurement])) := by
  refine ⟨?_, ?_, ?_⟩
  · intro hr
    simp [SPS30Sensor.read, h1, h2, hr]
  · intro hneg hne
    simp [SPS30Sensor.read, h1, h2, hneg, hne]
  · intro hge
    have : ¬ bus.sps30_read_measurement_ret < 0 := not_lt.mpr hge
    simp [SPS30Sensor.read, h1, h2, this]

/-- C7 witness: the dispatch theorem applied at the concrete insufficient
data bus (status -1) and active state. -/
theorem sps30_read_status_dispatch_witness :
    SPS30Sensor.read busSPSNotEnough spActive =
      (.error (.readError "SPS30" "Not enough data available (the sensor needs more time)."
        (-1) "sps30_read_measurement"), spActive, [Cmd.sps30_read_measurement]) :=
  (sps30_read_status_dispatch busSPSNotEnough spActive rfl rfl).1 rfl

/-- C8: on a ready (initialized, awake) CO2 machine, read with either
compensation argument absent fails with ValueError - a caller-side
ArgumentError constructor distinct from the hardware readError
constructor - leaving the state unchanged and issuing no bus command. -/
theorem stc31c_read_missing_args (bus : Bus) (s : STC31CState)
    (temperature humidity : Option Rat)
    (hinit : s._initialized = true) (_hawake : s._sleeping = false)
    (hmiss : temperature = none ∨ humidity = none) :
    STC31CSensor.read bus temperature humidity s =
      (.error (.valueError "STC31CSensor.read() requires temperature and humidity values."),
        s, []) ∧
    ∀ sn msg c op, PyErr.valueError "STC31CSensor.read() requires temperature and humidity values."
      ≠ PyErr.readError sn msg c op := by
  refine ⟨?_, by intro sn msg c op; simp⟩
  rcases hmiss with rfl | rfl
  · cases humidity <;> simp [STC31CSensor.read, hinit]
  · cases temperature <;> simp [STC31CSensor.read, hinit]

/-- C8 witness: the missing-argument theorem applied at the all-success
bus and ready state with the temperature argument absent. -/
theorem stc31c_read_missing_args_witness :
    STC31CSensor.read busOK none (some 50) stReady =
      (.error (.valueError "STC31CSensor.read() requires temperature and humidity values."),
        stReady, []) :=
  (stc31c_read_missing_args busOK stReady none (some 50) rfl rfl (Or.inl rfl)).1
/-- C4 counterexample: at the concrete uninitialized particulate state
(fresh from the constructor), sleep() does not fail with the
Uninitialized-state error as the claim states for every non-initialize
operation: it silently succeeds (the missing version info trips the
firmware gate first), issuing no bus command; and the uninitialized CO2
machine get_info issues its bus command unconditionally instead of
failing with an Uninitialized-state error. -/
theorem sps30_sleep_uninit_silently_succeeds :
    SPS30Sensor.sleep busOK SPS30Sensor.initState = (.ok (), SPS30Sensor.initState, []) ∧
    (STC31CSensor.get_info busOK (STC31CSensor.mkState false)).2.2 =
      [Cmd.stc3x_get_product_id] :=
  ⟨rfl, rfl⟩

/-- C4 (amended from all non-initialize operations to the read
operations, which are the ones the code guards): for each of the three
sensor kinds, calling read while the machine is Uninitialized fails with
the Uninitialized-state ReadError, leaves the state unchanged and issues
no bus command; the remaining operations are not all guarded (see the
counterexample). -/
theorem read_uninitialized_fails (bus : Bus)
    (sst : STC31CState) (ssh : SHTC3State) (ssp : SPS30State)
    (temperature humidity : Option Rat) (mode : String)
    (h1 : sst._initialized = false) (h2 : ssh._initialized = false)
    (h3 : ssp._initialized = false) :
    STC31CSensor.read bus temperature humidity sst =
      (.error (.readError "STC31-C" "Sensor not initialized" (-1) "read"), sst, []) ∧
    SHTC3Sensor.read bus mode ssh =
      (.error (.readError "SHTC3" "Sensor not initialized" (-1) "read"), ssh, []) ∧
    SPS30Sensor.read bus ssp =
      (.error (.readError "SPS30"
        "Cannot read data: sensor not properly initialized or measurement not started"
        (-1) "read"), ssp, []) := by
  refine ⟨?_, ?_, ?_⟩
  · simp [STC31CSensor.read, h1]
  · simp [SHTC3Sensor.read, h2]
  · simp [SPS30Sensor.read, h3]

/-- C4 witness: the amended theorem applied at the three concrete
fresh-constructed (uninitialized) states on the all-success bus. -/
theorem read_uninitialized_fails_witness :
    STC31CSensor.read busOK (some 25) (some 50) (STC31CSensor.mkState false) =
      (.error (.readError "STC31-C" "Sensor not initialized" (-1) "read"),
        STC31CSensor.mkState false, []) ∧
    SHTC3Sensor.read busOK "high" SHTC3Sensor.mkState =
      (.error (.readError "SHTC3" "Sensor not initialized" (-1) "read"),
        SHTC3Sensor.mkState, []) ∧
    SPS30Sensor.read busOK SPS30Sensor.initState =
      (.error (.readError "SPS30"
        "Cannot read data: sensor not properly initialized or measurement not started"
        (-1) "read"), SPS30Sensor.initState, []) :=
  read_uninitialized_fails busOK (STC31CSensor.mkState false) SHTC3Sensor.mkState
    SPS30Sensor.initState (some 25) (some 50) "high" rfl rfl rfl
/-- C10: the fresh particulate state has the initialized flag false, and
every public SPS30 operation, on any bus oracle, preserves the invariant
that an initialized sensor carries cached version info; hence the
firmware gate of sleep/wake never consults a missing version record on
an initialized sensor. -/
theorem sps30_initialized_version_invariant :
    SPS30InvHolds SPS30Sensor.initState = true ∧
    SPS30Sensor.initState._initialized = false ∧
    ∀ (op : SPS30Op) (bus : Bus) (s : SPS30State),
      SPS30InvHolds s = true → SPS30InvHolds (SPS30Op.stepState op bus s) = true := by
  refine ⟨rfl, rfl, ?_⟩
  intro op bus s h
  cases op <;>
    simp only [SPS30Op.stepState, SPS30Sensor.initialize_, SPS30Sensor.stop_measurement,
      SPS30Sensor.read, SPS30Sensor.sleep, SPS30Sensor.sleepGuarded, SPS30Sensor.wake_up,
      SPS30Sensor.wakeGuarded, SPS30Sensor.start_manual_fan_cleaning,
      SPS30Sensor.set_fan_auto_cleaning_interval_days,
      SPS30Sensor.get_fan_auto_cleaning_interval_days, SPS30Sensor.reset, SPS30Sensor.close,
      SPS30Sensor.get_info] <;>
    (repeat' split) <;>
    simp_all [SPS30InvHolds]

/-- C10 witness: the invariant theorem applied to one concrete step, a
sleep on the fresh state over the all-success bus. -/
theorem sps30_initialized_version_invariant_witness :
    SPS30InvHolds (SPS30Op.stepState SPS30Op.sleep busOK SPS30Sensor.initState) = true :=
  sps30_initialized_version_invariant.2.2 SPS30Op.sleep busOK SPS30Sensor.initState rfl
/-- Both error paths of STC31CSensor.initialize raise only
InitializationError or ReadError. -/
theorem stc31c_initialize_err_kind (bus : Bus) (s : STC31CState) :
    ∀ e s1 c, STC31CSensor.initialize_ bus s = (.error e, s1, c) → e.isInitOrRead = true := by
  intro e s1 c h
  unfold STC31CSensor.initialize_ STC31CSensor.enable_automatic_self_calibration
    STC31CSensor.disable_automatic_self_calibration at h
  repeat' split at h
  all_goals simp_all [PyErr.isInitOrRead]
  all_goals (obtain ⟨rfl, rfl, rfl⟩ := h; rfl)

/-- SHTC3Sensor.initialize never raises. -/
theorem shtc3_initialize_no_err (bus : Bus) (s : SHTC3State) :
    ∀ e s1 c, SHTC3Sensor.initialize_ bus s = (.error e, s1, c) → False := by
  intro e s1 c h
  simp [SHTC3Sensor.initialize_] at h

/-- Every error path of SPS30Sensor.initialize raises an
InitializationError or a ReadError. -/
theorem sps30_initialize_err_kind (bus : Bus) (d : Nat) (s : SPS30State) :
    ∀ e s1 c, SPS30Sensor.initialize_ bus d s = (.error e, s1, c) → e.isInitOrRead = true := by
  intro e s1 c h
  unfold SPS30Sensor.initialize_ at h
  repeat' split at h
  all_goals simp_all [PyErr.isInitOrRead]
  all_goals (obtain ⟨rfl, rfl, rfl⟩ := h; rfl)

/-- A successful STC31CSensor.initialize sets the initialized flag. -/
theorem stc31c_initialize_ok_state (bus : Bus) (s : STC31CState) :
    ∀ u s1 c, STC31CSensor.initialize_ bus s = (.ok u, s1, c) → s1._initialized = true := by
  intro u s1 c h
  unfold STC31CSensor.initialize_ STC31CSensor.enable_automatic_self_calibration
    STC31CSensor.disable_automatic_self_calibration at h
  repeat' split at h
  all_goals simp_all
  all_goals (obtain ⟨rfl, rfl⟩ := h; rfl)

/-- A successful SHTC3Sensor.initialize sets the initialized flag. -/
theorem shtc3_initialize_ok_state (bus : Bus) (s : SHTC3State) :
    ∀ u s1 c, SHTC3Sensor.initialize_ bus s = (.ok u, s1, c) → s1._initialized = true := by
  intro u s1 c h
  simp only [SHTC3Sensor.initialize_, Prod.mk.injEq] at h
  obtain ⟨-, rfl, -⟩ := h
  rfl

/-- A successful SPS30Sensor.initialize sets the initialized flag. -/
theorem sps30_initialize_ok_state (bus : Bus) (d : Nat) (s : SPS30State) :
    ∀ u s1 c, SPS30Sensor.initialize_ bus d s = (.ok u, s1, c) → s1._initialized = true := by
  intro u s1 c h
  unfold SPS30Sensor.initialize_ at h
  repeat' split at h
  all_goals simp_all
  all_goals (obtain ⟨rfl, rfl⟩ := h; rfl)
/-- Errors escaping the SPS30 step of the init phase are
InitializationError or ReadError, provided the enabled sensor object
exists. -/
theorem initPhase_sps_err_kind (bus : Bus) (m : SensorManager) (cs : List Cmd)
    (hsp : m.enable_sps30 = true → m.sps30.isSome = true) :
    ∀ e m1 c, SensorManager.initPhase_sps bus m cs = (.error e, m1, c) →
      e.isInitOrRead = true := by
  intro e m1 c h
  unfold SensorManager.initPhase_sps at h
  split at h
  · split at h
    · simp_all
    · rename_i sp hsome
      split at h
      · rename_i e1 sp1 c1 heq
        obtain ⟨heq2, -, -⟩ : e1 = e ∧ _ ∧ _ := by
          simpa using h
        exact heq2 ▸ sps30_initialize_err_kind bus 4 sp e1 sp1 c1 heq
      · simp_all
  · simp_all

/-- Errors escaping the SHTC3 step of the init phase (and onward) are
InitializationError or ReadError, provided enabled sensor objects exist. -/
theorem initPhase_sht_err_kind (bus : Bus) (m : SensorManager) (cs : List Cmd)
    (hsh : m.enable_shtc3 = true → m.shtc3.isSome = true)
    (hsp : m.enable_sps30 = true → m.sps30.isSome = true) :
    ∀ e m1 c, SensorManager.initPhase_sht bus m cs = (.error e, m1, c) →
      e.isInitOrRead = true := by
  intro e m1 c h
  unfold SensorManager.initPhase_sht at h
  split at h
  · split at h
    · simp_all
    · rename_i sh hsome
      split at h
      · rename_i e1 sh1 c1 heq
        exact absurd heq (by intro hq; exact shtc3_initialize_no_err bus sh e1 sh1 c1 hq)
      · rename_i u sh1 c1 heq
        exact initPhase_sps_err_kind bus { m with shtc3 := some sh1 } (cs ++ c1)
          (by simpa using hsp) e m1 c h
  · exact initPhase_sps_err_kind bus m cs hsp e m1 c h

/-- Errors escaping the whole init phase are InitializationError or
ReadError, provided enabled sensor objects exist. -/
theorem initPhase_err_kind (bus : Bus) (m : SensorManager)
    (hst : m.enable_stc31c = true → m.stc31c.isSome = true)
    (hsh : m.enable_shtc3 = true → m.shtc3.isSome = true)
    (hsp : m.enable_sps30 = true → m.sps30.isSome = true) :
    ∀ e m1 c, SensorManager.initPhase bus m = (.error e, m1, c) →
      e.isInitOrRead = true := by
  intro e m1 c h
  unfold SensorManager.initPhase at h
  split at h
  · split at h
    · simp_all
    · rename_i st hsome
      split at h
      · rename_i e1 st1 c1 heq
        obtain ⟨heq2, -, -⟩ : e1 = e ∧ _ ∧ _ := by
          simpa using h
        exact heq2 ▸ stc31c_initialize_err_kind bus st e1 st1 c1 heq
      · rename_i u st1 c1 heq
        exact initPhase_sht_err_kind bus { m with stc31c := some st1 } c1
          (by simpa using hsh) (by simpa using hsp) e m1 c h
  · exact initPhase_sht_err_kind bus m [] hsh hsp e m1 c h
/-- A manager is fully initialized once each enabled sensor slot holds an
initialized state. -/
theorem fullInit_of (m : SensorManager)
    (h1 : m.enable_stc31c = true →
      (match m.stc31c with | some st => st._initialized | none => false) = true)
    (h2 : m.enable_shtc3 = true →
      (match m.shtc3 with | some sh => sh._initialized | none => false) = true)
    (h3 : m.enable_sps30 = true →
      (match m.sps30 with | some sp => sp._initialized | none => false) = true) :
    managerFullyInitialized m = true := by
  unfold managerFullyInitialized
  cases hc1 : m.enable_stc31c <;> cases hc2 : m.enable_shtc3 <;>
    cases hc3 : m.enable_sps30 <;> simp_all

/-- A successful SPS30 init step yields a fully initialized manager,
given the earlier sensors were already handled. -/
theorem initPhase_sps_ok_full (bus : Bus) (m : SensorManager) (cs : List Cmd)
    (hst : m.enable_stc31c = true →
      (match m.stc31c with | some st => st._initialized | none => false) = true)
    (hsh : m.enable_shtc3 = true →
      (match m.shtc3 with | some sh => sh._initialized | none => false) = true) :
    ∀ u m1 c, SensorManager.initPhase_sps bus m cs = (.ok u, m1, c) →
      managerFullyInitialized m1 = true := by
  intro u m1 c h
  unfold SensorManager.initPhase_sps at h
  split at h
  · rename_i hen
    split at h
    · simp_all
    · rename_i sp hsome
      split at h
      · simp_all
      · rename_i u1 sp1 c1 heq
        obtain ⟨rfl, -⟩ : { m with sps30 := some sp1 } = m1 ∧ cs ++ c1 = c := by
          simpa using h
        refine fullInit_of _ (by simpa using hst) (by simpa using hsh) ?_
        intro _
        simpa using sps30_initialize_ok_state bus 4 sp u1 sp1 c1 heq
  · rename_i hen
    obtain ⟨rfl, -⟩ : m = m1 ∧ cs = c := by
      simpa using h
    exact fullInit_of m hst hsh (fun hc => absurd hc hen)

/-- A successful SHTC3-and-onward init step yields a fully initialized
manager, given the STC31-C was already handled. -/
theorem initPhase_sht_ok_full (bus : Bus) (m : SensorManager) (cs : List Cmd)
    (hst : m.enable_stc31c = true →
      (match m.stc31c with | some st => st._initialized | none => false) = true) :
    ∀ u m1 c, SensorManager.initPhase_sht bus m cs = (.ok u, m1, c) →
      managerFullyInitialized m1 = true := by
  intro u m1 c h
  unfold SensorManager.initPhase_sht at h
  split at h
  · rename_i hen
    split at h
    · simp_all
    · rename_i sh hsome
      split at h
      · simp_all
      · rename_i u1 sh1 c1 heq
        have hinit := shtc3_initialize_ok_state bus sh u1 sh1 c1 heq
        refine initPhase_sps_ok_full bus { m with shtc3 := some sh1 } (cs ++ c1)
          (by simpa using hst) ?_ u m1 c h
        intro _
        simpa using hinit
  · rename_i hen
    exact initPhase_sps_ok_full bus m cs hst (fun hc => absurd hc hen) u m1 c h

/-- A successful init phase yields a fully initialized manager. -/
theorem initPhase_ok_full (bus : Bus) (m : SensorManager) :
    ∀ u m1 c, SensorManager.initPhase bus m = (.ok u, m1, c) →
      managerFullyInitialized m1 = true := by
  intro u m1 c h
  unfold SensorManager.initPhase at h
  split at h
  · rename_i hen
    split at h
    · simp_all
    · rename_i st hsome
      split at h
      · simp_all
      · rename_i u1 st1 c1 heq
        have hinit := stc31c_initialize_ok_state bus st u1 st1 c1 heq
        refine initPhase_sht_ok_full bus { m with stc31c := some st1 } c1 ?_ u m1 c h
        intro _
        simpa using hinit
  · rename_i hen
    exact initPhase_sht_ok_full bus m [] (fun hc => absurd hc hen) u m1 c h
/-- preInit creates a sensor object for every enabled sensor. -/
theorem preInit_enabled_isSome (cal e1 e2 e3 : Bool) :
    ((SensorManager.preInit cal e1 e2 e3).1.enable_stc31c = true →
      (SensorManager.preInit cal e1 e2 e3).1.stc31c.isSome = true) ∧
    ((SensorManager.preInit cal e1 e2 e3).1.enable_shtc3 = true →
      (SensorManager.preInit cal e1 e2 e3).1.shtc3.isSome = true) ∧
    ((SensorManager.preInit cal e1 e2 e3).1.enable_sps30 = true →
      (SensorManager.preInit cal e1 e2 e3).1.sps30.isSome = true) := by
  cases e1 <;> cases e2 <;> cases e3 <;> simp [SensorManager.preInit]

/-- C2: the coordinator constructor is atomic-on-failure. If the init
phase over the instantiated sensors raises, SensorManager.__init__
invokes shutdown on the partially initialized manager, appends its bus
commands, and re-raises the original error; and whenever construction
returns successfully, every enabled sensor object carries the
initialized flag, so no partially initialized manager is handed back. -/
theorem manager_ctor_atomic (bus : Bus) (cal e1 e2 e3 : Bool) :
    (∀ err m1 cs,
      SensorManager.initPhase bus (SensorManager.preInit cal e1 e2 e3).1 = (.error err, m1, cs) →
      (SensorManager.mk_ bus cal e1 e2 e3).result = .error err ∧
      (SensorManager.mk_ bus cal e1 e2 e3).shutdown_called = true ∧
      (SensorManager.mk_ bus cal e1 e2 e3).cmds = cs ++ (SensorManager.shutdown bus m1).2) ∧
    (∀ m, (SensorManager.mk_ bus cal e1 e2 e3).result = .ok m →
      managerFullyInitialized m = true) := by
  constructor
  · intro err m1 cs h
    obtain ⟨h1, h2, h3⟩ := preInit_enabled_isSome cal e1 e2 e3
    have hkind : err.isInitOrRead = true :=
      initPhase_err_kind bus (SensorManager.preInit cal e1 e2 e3).1 h1 h2 h3 err m1 cs h
    simp only [SensorManager.mk_]
    rw [h]
    simp [hkind]
  · intro m hm
    simp only [SensorManager.mk_] at hm
    rcases hr : SensorManager.initPhase bus (SensorManager.preInit cal e1 e2 e3).1
      with ⟨r, m1, cs⟩
    rw [hr] at hm
    cases r with
    | ok u =>
      have hfull := initPhase_ok_full bus (SensorManager.preInit cal e1 e2 e3).1 u m1 cs hr
      have hm1 : m1 = m := by
        simpa using hm
      exact hm1 ▸ hfull
    | error e =>
      by_cases hk : e.isInitOrRead = true <;> simp [hk] at hm

/-- C2 witness: with the I2C hal init failing (status 7) and all sensors
enabled, construction raises the STC31-C InitializationError, calls
shutdown, and appends its commands after the failed init trace. -/
theorem manager_ctor_atomic_witness :
    (SensorManager.mk_ busInitFail false true true true).result =
      .error (.initializationError "STC31-C" "Failed to initialize I²C interface" 7
        "sensirion_i2c_hal_init") ∧
    (SensorManager.mk_ busInitFail false true true true).shutdown_called = true ∧
    (SensorManager.mk_ busInitFail false true true true).cmds =
      [Cmd.sensirion_i2c_hal_init] ++
        (SensorManager.shutdown busInitFail (SensorManager.preInit false true true true).1).2 :=
  (manager_ctor_atomic busInitFail false true true true).1
    (.initializationError "STC31-C" "Failed to initialize I²C interface" 7
      "sensirion_i2c_hal_init")
    (SensorManager.preInit false true true true).1
    [Cmd.sensirion_i2c_hal_init] rfl
/-- The init phase never changes the activation flags and never clears
the SHTC3 sensor slot. -/
theorem initPhase_preserves (bus : Bus) (m : SensorManager) :
    (SensorManager.initPhase bus m).2.1.enable_stc31c = m.enable_stc31c ∧
    (SensorManager.initPhase bus m).2.1.enable_shtc3 = m.enable_shtc3 ∧
    (SensorManager.initPhase bus m).2.1.enable_sps30 = m.enable_sps30 ∧
    (SensorManager.initPhase bus m).2.1.shtc3.isSome = m.shtc3.isSome := by
  unfold SensorManager.initPhase SensorManager.initPhase_sht SensorManager.initPhase_sps
  repeat' split
  all_goals simp_all

/-- C3: constructing the coordinator with the CO2 sensor enabled and the
temperature/humidity sensor explicitly disabled forces the
temperature/humidity sensor on anyway: the dependency override is
logged (dep_warned), the pre-init manager reports enable_shtc3 and
creates the SHTC3 machine, and any successfully constructed manager
still reports enable_shtc3 with its machine present. -/
theorem manager_shtc3_dependency (bus : Bus) (cal sps : Bool) :
    (SensorManager.preInit cal true false sps).2 = true ∧
    (SensorManager.preInit cal true false sps).1.enable_shtc3 = true ∧
    (SensorManager.preInit cal true false sps).1.shtc3 = some SHTC3Sensor.mkState ∧
    (SensorManager.mk_ bus cal true false sps).dep_warned = true ∧
    (∀ m, (SensorManager.mk_ bus cal true false sps).result = .ok m →
      m.enable_shtc3 = true ∧ m.shtc3.isSome = true) := by
  refine ⟨rfl, rfl, rfl, ?_, ?_⟩
  · simp only [SensorManager.mk_]
    rcases hr : SensorManager.initPhase bus (SensorManager.preInit cal true false sps).1
      with ⟨r, m1, cs⟩
    cases r with
    | ok u => rfl
    | error e => by_cases hk : e.isInitOrRead = true <;> simp [hk, SensorManager.preInit]
  · intro m hm
    have hp := initPhase_preserves bus (SensorManager.preInit cal true false sps).1
    simp only [SensorManager.mk_] at hm
    rcases hr : SensorManager.initPhase bus (SensorManager.preInit cal true false sps).1
      with ⟨r, m1, cs⟩
    rw [hr] at hm hp
    cases r with
    | ok u =>
      have hm1 : m1 = m := by
        simpa using hm
      subst hm1
      refine ⟨?_, ?_⟩
      · exact hp.2.1
      · exact hp.2.2.2
    | error e => by_cases hk : e.isInitOrRead = true <;> simp [hk] at hm

/-- C3 witness: the dependency theorem applied on the all-success bus;
construction succeeds with the all-ready manager, which reports the
SHTC3 machine enabled and present. -/
theorem manager_shtc3_dependency_witness :
    (SensorManager.mk_ busOK false true false true).dep_warned = true ∧
    (SensorManager.mk_ busOK false true false true).result = .ok mAll ∧
    mAll.enable_shtc3 = true ∧ mAll.shtc3.isSome = true := by
  have h := manager_shtc3_dependency busOK false true
  exact ⟨h.2.2.2.1, rfl, h.2.2.2.2 mAll rfl⟩
/-- C1 counterexample: with all three sensors enabled and ready and the
CO2 machine read raising ReadError (its humidity-compensation write
returns status 5), read_all raises that ReadError - it does not return a
ReadingSet omitting the CO2 key as the claim states. -/
theorem read_all_co2_fault_raises :
    (SensorManager.read_all busSTCReadFail mAll).1 =
      .error (.readError "STC31-C" "Failed to set relative humidity for compensation" 5
        "stc3x_set_relative_humidity") :=
  rfl

/-- C1 (amended from fault isolation to fault propagation, which is what
the code does): read_all catches no per-sensor read fault; whenever the
SHTC3 read succeeds with a nonempty record and the CO2 machine read of
the handed-over compensation values raises, read_all raises that very
error instead of returning a ReadingSet. -/
theorem read_all_propagates_co2_fault (bus : Bus) (m : SensorManager)
    (sh : SHTC3State) (st : STC31CState) (d : PyDict) (sh1 : SHTC3State) (c1 : List Cmd)
    (e : PyErr) (st1 : STC31CState) (c2 : List Cmd)
    (h1 : m.enable_shtc3 = true) (h2 : m.shtc3 = some sh)
    (h3 : m.enable_stc31c = true) (h4 : m.stc31c = some st)
    (h5 : SHTC3Sensor.read bus "high" sh = (.ok d, sh1, c1))
    (h6 : d.isEmpty = false)
    (h7 : STC31CSensor.read bus (d.lookup "temperature") (d.lookup "relative_humidity") st =
      (.error e, st1, c2)) :
    (SensorManager.read_all bus m).1 = .error e := by
  unfold SensorManager.read_all
  rw [h1]
  simp only [if_true]
  rw [h2]
  simp only
  rw [h5]
  simp only
  unfold SensorManager.read_all_stc
  simp only [h3, if_true]
  rw [show ({ m with shtc3 := some sh1 } : SensorManager).stc31c = some st from by simp [h4]]
  simp only [dictTruthy, h6, Bool.not_false, if_true, Option.getD]
  rw [h7]

/-- C1 witness: the propagation theorem applied at the concrete
failing-compensation bus and the all-ready manager. -/
theorem read_all_propagates_co2_fault_witness :
    (SensorManager.read_all busSTCReadFail mAll).1 =
      .error (.readError "STC31-C" "Failed to set relative humidity for compensation" 5
        "stc3x_set_relative_humidity") :=
  read_all_propagates_co2_fault busSTCReadFail mAll shReady stReady
    [("temperature", 25), ("relative_humidity", 50)] shReady
    [Cmd.sht4x_measure_high_precision]
    (.readError "STC31-C" "Failed to set relative humidity for compensation" 5
      "stc3x_set_relative_humidity")
    stReady [Cmd.stc3x_set_relative_humidity 50] rfl rfl rfl rfl rfl rfl rfl
